import Mathlib

set_option linter.unusedVariables false
set_option linter.unnecessarySeqFocus false

/-!
Verification of the freqtrade-strategies repository (GridStrategy, GridStrategyV2,
IchiV1_Fixed, IchiV1_Optimizable) against its natural-language specification.

Modelling conventions.
A pandas dataframe column is a function from the row index to `Option ℚ`:
`none` models a missing value (NaN).  Raw OHLCV candle columns contain no NaN
and are modelled as total functions `ℕ → ℚ`.  Floating-point numbers are
modelled as exact rationals.  Pandas comparison operators on series return
`False` on any NaN operand; arithmetic propagates NaN.  Division by zero
(which floats would turn into an infinity) is modelled as an undefined value;
no theorem below depends on that corner.
-/

/-- A dataframe column (series): row index to value, `none` = NaN. -/
abbrev Series : Type := ℕ → Option ℚ

/-- pandas `Series.shift(k)`: value at row `i` comes from row `i - k`;
the first `k` rows become NaN. -/
def shiftN (k : ℕ) (s : Series) (i : ℕ) : Option ℚ :=
  if i < k then none else s (i - k)

/-- pandas `>` on series: `False` when either operand is NaN. -/
def oGT : Option ℚ → Option ℚ → Bool
  | some a, some b => decide (b < a)
  | _, _ => false

/-- pandas `>=` on series: `False` when either operand is NaN. -/
def oGE : Option ℚ → Option ℚ → Bool
  | some a, some b => decide (b ≤ a)
  | _, _ => false

/-- pandas `<` on series: `False` when either operand is NaN. -/
def oLT : Option ℚ → Option ℚ → Bool
  | some a, some b => decide (a < b)
  | _, _ => false

/-- pandas `<=` on series: `False` when either operand is NaN. -/
def oLE : Option ℚ → Option ℚ → Bool
  | some a, some b => decide (a ≤ b)
  | _, _ => false

/-- pandas `/` on series: NaN propagates; division by zero (an infinity in
floats) is modelled as undefined. -/
def oDiv : Option ℚ → Option ℚ → Option ℚ
  | some a, some b => if b = 0 then none else some (a / b)
  | _, _ => none

/-- Mean of the elements `(a + b) / 2`, NaN-propagating. -/
def oHalfSum : Option ℚ → Option ℚ → Option ℚ
  | some a, some b => some ((a + b) / 2)
  | _, _ => none

/-- One OHLCV candle table: time-ordered rows `0, …, n-1`, each with numeric
open/high/low/close/volume fields (raw candles carry no NaN). -/
structure RawFrame where
  n : ℕ
  open_ : ℕ → ℚ
  high : ℕ → ℚ
  low : ℕ → ℚ
  close : ℕ → ℚ
  volume : ℕ → ℚ

/- ---------------------------------------------------------------------
Models of the indicator-library functions the strategies call
(TA-Lib via `talib.abstract`, `freqtrade.vendor.qtpylib.indicators`,
`technical.indicators`).  Each definition mirrors the library computation
on a NaN-free input series.
--------------------------------------------------------------------- -/

/-- TA-Lib `SMA(timeperiod = p)`: NaN before row `p - 1`, then the mean of
the trailing window of `p` values. -/
def taSMA (p : ℕ) (f : ℕ → ℚ) (i : ℕ) : Option ℚ :=
  if i + 1 < p then none
  else some ((((List.range p).map fun j => f (i + 1 - p + j)).sum) / (p : ℚ))

/-- TA-Lib `EMA(timeperiod = p)` (classic mode): NaN before row `p - 1`,
seeded with the SMA of the first `p` values at row `p - 1`, then the
recursion `ema_i = ema_{i-1} + (2 / (p + 1)) * (x_i - ema_{i-1})`. -/
def taEMA (p : ℕ) (f : ℕ → ℚ) : ℕ → Option ℚ
  | 0 => if p ≤ 1 then some (f 0) else none
  | i + 1 =>
    if i + 2 < p then none
    else if i + 2 = p then some ((((List.range p).map f).sum) / (p : ℚ))
    else
      match taEMA p f i with
      | some prev => some (prev + 2 / ((p : ℚ) + 1) * (f (i + 1) - prev))
      | none => none

/-- Wilder smoothing used by TA-Lib RSI and ATR: at row `p` the seed is the
mean of `d 1, …, d p`; afterwards `avg_i = (avg_{i-1} * (p - 1) + d i) / p`.
Rows before `p` are never consulted (the indicator is NaN there). -/
def wilderSmooth (p : ℕ) (d : ℕ → ℚ) : ℕ → ℚ
  | 0 => 0
  | i + 1 =>
    if i + 1 ≤ p then (((List.range p).map fun j => d (j + 1)).sum) / (p : ℚ)
    else (wilderSmooth p d i * ((p : ℚ) - 1) + d (i + 1)) / (p : ℚ)

/-- TA-Lib `RSI(timeperiod = p)`: NaN before row `p`, then
`100 * avgGain / (avgGain + avgLoss)` with Wilder smoothing of the
one-row gains and losses (`0` when both averages vanish, as in `ta_RSI.c`). -/
def taRSI (p : ℕ) (f : ℕ → ℚ) (i : ℕ) : Option ℚ :=
  if i < p then none
  else if wilderSmooth p (fun j => max (f j - f (j - 1)) 0) i
      + wilderSmooth p (fun j => max (f (j - 1) - f j) 0) i = 0 then some 0
  else some (100 * wilderSmooth p (fun j => max (f j - f (j - 1)) 0) i /
    (wilderSmooth p (fun j => max (f j - f (j - 1)) 0) i
      + wilderSmooth p (fun j => max (f (j - 1) - f j) 0) i))

/-- The true range at row `j ≥ 1`:
`max (high - low) (max |high - prevClose| |low - prevClose|)`. -/
def trueRange (h l c : ℕ → ℚ) (j : ℕ) : ℚ :=
  max (h j - l j) (max |h j - c (j - 1)| |l j - c (j - 1)|)

/-- TA-Lib `ATR(timeperiod = p)`: NaN before row `p`, then Wilder smoothing
of the true range. -/
def taATR (p : ℕ) (h l c : ℕ → ℚ) (i : ℕ) : Option ℚ :=
  if i < p then none else some (wilderSmooth p (trueRange h l c) i)

/-- The trailing window pandas `rolling(window = w, min_periods = 1)` sees at
row `i`: the last `min (i + 1) w` values, newest first. -/
def rollingWindow (w : ℕ) (f : ℕ → ℚ) (i : ℕ) : List ℚ :=
  (List.range (min (i + 1) w)).map fun j => f (i - j)

/-- pandas `rolling(window = w, min_periods = 1).mean()` (always defined). -/
def rollingMeanMP1 (w : ℕ) (f : ℕ → ℚ) (i : ℕ) : ℚ :=
  ((rollingWindow w f i).sum) / ((rollingWindow w f i).length : ℚ)

/-- pandas `rolling(window = w, min_periods = 1).std()` (sample standard
deviation, `ddof = 1`): NaN while the window holds fewer than two values.
The exact standard deviation is irrational in general; we use the rational
square-root approximation `Rat.sqrt`.  No claim below depends on the
numeric value of the standard deviation, only on its definedness and on
windows whose variance is a perfect square. -/
def rollingStdMP1 (w : ℕ) (f : ℕ → ℚ) (i : ℕ) : Option ℚ :=
  let xs := rollingWindow w f i
  if xs.length < 2 then none
  else
    let m := xs.sum / (xs.length : ℚ)
    some (Rat.sqrt ((xs.map fun x => (x - m) ^ 2).sum / ((xs.length - 1 : ℕ) : ℚ)))

/-- qtpylib `bollinger_bands(series, window, stds)` lower band:
`rolling_mean(min_periods = 1) - stds * rolling_std(min_periods = 1)`. -/
def bbLower (w : ℕ) (k : ℚ) (f : ℕ → ℚ) (i : ℕ) : Option ℚ :=
  match rollingStdMP1 w f i with
  | none => none
  | some s => some (rollingMeanMP1 w f i - k * s)

/-- qtpylib `bollinger_bands(series, window, stds)` upper band. -/
def bbUpper (w : ℕ) (k : ℚ) (f : ℕ → ℚ) (i : ℕ) : Option ℚ :=
  match rollingStdMP1 w f i with
  | none => none
  | some s => some (rollingMeanMP1 w f i + k * s)

/-- pandas `rolling(window = w).max()` (default `min_periods = w`). -/
def rollMax (w : ℕ) (f : ℕ → ℚ) (i : ℕ) : Option ℚ :=
  if i + 1 < w then none
  else some (((List.range w).map fun j => f (i - j)).foldr max (f i))

/-- pandas `rolling(window = w).min()` (default `min_periods = w`). -/
def rollMin (w : ℕ) (f : ℕ → ℚ) (i : ℕ) : Option ℚ :=
  if i + 1 < w then none
  else some (((List.range w).map fun j => f (i - j)).foldr min (f i))

/-- An Ichimoku line of `technical.indicators.ichimoku`:
`(rolling_max(high, w) + rolling_min(low, w)) / 2`. -/
def ichimokuLine (w : ℕ) (h l : ℕ → ℚ) (i : ℕ) : Option ℚ :=
  oHalfSum (rollMax w h i) (rollMin w l i)

/-- qtpylib `heikinashi` close: `(open + high + low + close) / 4`. -/
def haClose (raw : RawFrame) (i : ℕ) : ℚ :=
  (raw.open_ i + raw.high i + raw.low i + raw.close i) / 4

/-- qtpylib `heikinashi` open: `(open_0 + close_0) / 2` at row 0, then the
average of the previous Heikin-Ashi open and the previous Heikin-Ashi close. -/
def haOpen (raw : RawFrame) : ℕ → ℚ
  | 0 => (raw.open_ 0 + raw.close 0) / 2
  | i + 1 => (haOpen raw i + haClose raw i) / 2

/-- qtpylib `heikinashi` high: `max(high, ha_open, ha_close)` rowwise. -/
def haHigh (raw : RawFrame) (i : ℕ) : ℚ :=
  max (raw.high i) (max (haOpen raw i) (haClose raw i))

/-- qtpylib `heikinashi` low: `min(low, ha_open, ha_close)` rowwise. -/
def haLow (raw : RawFrame) (i : ℕ) : ℚ :=
  min (raw.low i) (min (haOpen raw i) (haClose raw i))

/-- qtpylib `crossed_below(s1, s2)`:
`(s1 < s2) & (s1.shift(1) >= s2.shift(1))`, rowwise, NaN comparing false. -/
def crossed_below (s1 s2 : Series) (i : ℕ) : Bool :=
  oLT (s1 i) (s2 i) && oGE (shiftN 1 s1 i) (shiftN 1 s2 i)

/- ---------------------------------------------------------------------
GridStrategy (src/strategies/Grid/GridStrategy.py)
--------------------------------------------------------------------- -/

namespace GridStrategy

/-- `stoploss = -0.05`. -/
def stoploss : ℚ := -(5 / 100)

/-- `startup_candle_count = 30`. -/
def startup_candle_count : ℕ := 30

/-- `grid_spacing_percent = 2.0`. -/
def grid_spacing_percent : ℚ := 2

/-- The dataframe after `GridStrategy.populate_indicators`: the raw OHLCV
columns plus the named indicator columns the method assigns. -/
structure Frame where
  n : ℕ
  open_ : ℕ → ℚ
  high : ℕ → ℚ
  low : ℕ → ℚ
  close : ℕ → ℚ
  volume : ℕ → ℚ
  sma_20 : Series
  sma_50 : Series
  rsi : Series
  atr : Series
  bb_lowerband : Series
  bb_upperband : Series
  bb_middleband : Series
  grid_buy_level : Series
  grid_sell_level : Series
  volume_sma : Series

/-- `GridStrategy.populate_indicators`: adds SMA(20/50), RSI(14), ATR(14),
Bollinger bands (window 20, 2 stds, on close), grid levels at
`close * (1 ∓ spacing/100)` and SMA(20) of volume; OHLCV is untouched. -/
def populate_indicators (raw : RawFrame) : Frame where
  n := raw.n
  open_ := raw.open_
  high := raw.high
  low := raw.low
  close := raw.close
  volume := raw.volume
  sma_20 := taSMA 20 raw.close
  sma_50 := taSMA 50 raw.close
  rsi := taRSI 14 raw.close
  atr := taATR 14 raw.high raw.low raw.close
  bb_lowerband := bbLower 20 2 raw.close
  bb_upperband := bbUpper 20 2 raw.close
  bb_middleband := fun i => some (rollingMeanMP1 20 raw.close i)
  grid_buy_level := fun i => some (raw.close i * (1 - grid_spacing_percent / 100))
  grid_sell_level := fun i => some (raw.close i * (1 + grid_spacing_percent / 100))
  volume_sma := taSMA 20 raw.volume

/-- The row mask of `GridStrategy.populate_entry_trend`:
`(close <= bb_lowerband | rsi < 40 | (close < sma_20 & volume > volume_sma))
& volume > 0 & close > 0`. -/
def entryMask (f : Frame) (i : ℕ) : Bool :=
  (oLE (some (f.close i)) (f.bb_lowerband i)
      || oLT (f.rsi i) (some 40)
      || (oLT (some (f.close i)) (f.sma_20 i)
          && oGT (some (f.volume i)) (f.volume_sma i)))
    && decide (0 < f.volume i)
    && decide (0 < f.close i)

/-- `GridStrategy.populate_entry_trend`: `dataframe.loc[mask, 'enter_long'] = 1`;
rows outside the mask keep the fresh column's missing value. -/
def populate_entry_trend (f : Frame) (i : ℕ) : Option ℚ :=
  if entryMask f i then some 1 else none

/-- The row mask of `GridStrategy.populate_exit_trend`:
`(close >= bb_upperband | rsi > 60 | (close > sma_20 & volume > volume_sma))
& volume > 0`. -/
def exitMask (f : Frame) (i : ℕ) : Bool :=
  (oGE (some (f.close i)) (f.bb_upperband i)
      || oGT (f.rsi i) (some 60)
      || (oGT (some (f.close i)) (f.sma_20 i)
          && oGT (some (f.volume i)) (f.volume_sma i)))
    && decide (0 < f.volume i)

/-- `GridStrategy.populate_exit_trend`: `dataframe.loc[mask, 'exit_long'] = 1`. -/
def populate_exit_trend (f : Frame) (i : ℕ) : Option ℚ :=
  if exitMask f i then some 1 else none

/-- `GridStrategy.custom_stoploss`: `-0.02` once `current_profit > 0.01`,
otherwise the configured `stoploss`; the other arguments are ignored. -/
def custom_stoploss (pair : String) (current_time : ℤ) (current_rate : ℚ)
    (current_profit : ℚ) : ℚ :=
  if 1 / 100 < current_profit then -(2 / 100) else stoploss

/-- `GridStrategy.confirm_trade_entry`: unconditionally `true`. -/
def confirm_trade_entry (pair : String) (order_type : String) (amount : ℚ)
    (rate : ℚ) (time_in_force : String) (current_time : ℤ) (side : String) : Bool :=
  true

end GridStrategy

/- ---------------------------------------------------------------------
GridStrategyV2 (src/strategies/Grid/GridStrategyV2.py)
--------------------------------------------------------------------- -/

namespace GridStrategyV2

/-- `stoploss = -0.06`. -/
def stoploss : ℚ := -(6 / 100)

/-- `startup_candle_count = 30`. -/
def startup_candle_count : ℕ := 30

/-- Modelled from the spec: `GridStrategyV2` defines no `custom_stoploss`
override (the method is absent from the class), so the host's dynamic
stop-loss query falls back to the strategy's configured fixed stop-loss
ratio at every profit level (spec §4.4/§6: the hook is optional and the
static configuration surface carries the fixed stop-loss ratio). -/
def custom_stoploss_default (pair : String) (current_time : ℤ) (current_rate : ℚ)
    (current_profit : ℚ) : ℚ :=
  stoploss

/-- The dataframe after `GridStrategyV2.populate_indicators`. -/
structure Frame where
  n : ℕ
  open_ : ℕ → ℚ
  high : ℕ → ℚ
  low : ℕ → ℚ
  close : ℕ → ℚ
  volume : ℕ → ℚ
  bb_lowerband : Series
  bb_upperband : Series
  bb_middleband : Series
  rsi : Series
  volume_sma : Series

/-- `GridStrategyV2.populate_indicators`: Bollinger bands (window 20, 2 stds,
on close), RSI(14) and SMA(20) of volume; OHLCV is untouched. -/
def populate_indicators (raw : RawFrame) : Frame where
  n := raw.n
  open_ := raw.open_
  high := raw.high
  low := raw.low
  close := raw.close
  volume := raw.volume
  bb_lowerband := bbLower 20 2 raw.close
  bb_upperband := bbUpper 20 2 raw.close
  bb_middleband := fun i => some (rollingMeanMP1 20 raw.close i)
  rsi := taRSI 14 raw.close
  volume_sma := taSMA 20 raw.volume

/-- The row mask of `GridStrategyV2.populate_entry_trend`:
`(close <= bb_lowerband | rsi < 30) & volume > 0` — note: no `close > 0` gate. -/
def entryMask (f : Frame) (i : ℕ) : Bool :=
  (oLE (some (f.close i)) (f.bb_lowerband i) || oLT (f.rsi i) (some 30))
    && decide (0 < f.volume i)

/-- `GridStrategyV2.populate_entry_trend`: `dataframe.loc[mask, 'enter_long'] = 1`. -/
def populate_entry_trend (f : Frame) (i : ℕ) : Option ℚ :=
  if entryMask f i then some 1 else none

/-- The row mask of `GridStrategyV2.populate_exit_trend`:
`(close >= bb_upperband & rsi > 70) & volume > 0`. -/
def exitMask (f : Frame) (i : ℕ) : Bool :=
  (oGE (some (f.close i)) (f.bb_upperband i) && oGT (f.rsi i) (some 70))
    && decide (0 < f.volume i)

/-- `GridStrategyV2.populate_exit_trend`: `dataframe.loc[mask, 'exit_long'] = 1`. -/
def populate_exit_trend (f : Frame) (i : ℕ) : Option ℚ :=
  if exitMask f i then some 1 else none

end GridStrategyV2

/- ---------------------------------------------------------------------
IchiV1 (src/strategies/IchiV1/IchiV1_Fixed.py and IchiV1_Optimizable.py).
The two classes share their indicator stage and their entry/exit logic;
they differ only in where the buy/sell parameter values come from, so the
logic is embedded once, parametrized by the parameter record.
--------------------------------------------------------------------- -/

namespace IchiV1

/-- `startup_candle_count = 96` (both IchiV1 variants). -/
def startup_candle_count : ℕ := 96

/-- The buy-signal parameter bag (`buy_params` of `IchiV1_Fixed`, or the
current values of the four hyperopt parameters of `IchiV1_Optimizable`). -/
structure BuyParams where
  buy_trend_above_senkou_level : ℕ
  buy_trend_bullish_level : ℕ
  buy_min_fan_magnitude_gain : ℚ
  buy_fan_magnitude_shift_value : ℕ

/-- The columns of the dataframe after `populate_indicators` of either
IchiV1 variant.  `open_`, `high`, `low` hold the Heikin-Ashi values the
method wrote over the raw columns; `close` and `volume` are the raw ones. -/
structure Frame where
  n : ℕ
  open_ : ℕ → ℚ
  high : ℕ → ℚ
  low : ℕ → ℚ
  close : ℕ → ℚ
  volume : ℕ → ℚ
  trend_close_5m : Series
  trend_close_15m : Series
  trend_close_30m : Series
  trend_close_1h : Series
  trend_close_2h : Series
  trend_close_4h : Series
  trend_close_6h : Series
  trend_close_8h : Series
  trend_open_5m : Series
  trend_open_15m : Series
  trend_open_30m : Series
  trend_open_1h : Series
  trend_open_2h : Series
  trend_open_4h : Series
  trend_open_6h : Series
  trend_open_8h : Series
  fan_magnitude : Series
  fan_magnitude_gain : Series
  tenkan_sen : Series
  kijun_sen : Series
  senkou_a : Series
  senkou_b : Series
  leading_senkou_span_a : Series
  leading_senkou_span_b : Series
  cloud_green : ℕ → Bool
  cloud_red : ℕ → Bool
  atr : Series

/-- `fan_magnitude = trend_close_1h / trend_close_8h` on the Heikin-Ashi
modified frame (EMA(12) over EMA(96) of the raw close). -/
def fanMagnitude (raw : RawFrame) (i : ℕ) : Option ℚ :=
  oDiv (taEMA 12 raw.close i) (taEMA 96 raw.close i)

/-- `fan_magnitude_gain = fan_magnitude / fan_magnitude.shift(1)`. -/
def fanMagnitudeGain (raw : RawFrame) (i : ℕ) : Option ℚ :=
  oDiv (fanMagnitude raw i) (shiftN 1 (fanMagnitude raw) i)

/-- `populate_indicators` of `IchiV1_Fixed` / `IchiV1_Optimizable`:
overwrites `open`, `high`, `low` with the qtpylib Heikin-Ashi values
(`close` stays raw), adds the EMA families of close and of (Heikin-Ashi)
open at periods 1/3/6/12/24/48/72/96, the fan magnitude and its gain, the
`technical.indicators.ichimoku` components (conversion 20, base 60,
lagging span 120, displacement 30; the cloud spans are the leading spans
shifted forward by the displacement), and ATR(14) on the modified frame. -/
def populate_indicators (raw : RawFrame) : Frame where
  n := raw.n
  open_ := haOpen raw
  high := haHigh raw
  low := haLow raw
  close := raw.close
  volume := raw.volume
  trend_close_5m := fun i => some (raw.close i)
  trend_close_15m := taEMA 3 raw.close
  trend_close_30m := taEMA 6 raw.close
  trend_close_1h := taEMA 12 raw.close
  trend_close_2h := taEMA 24 raw.close
  trend_close_4h := taEMA 48 raw.close
  trend_close_6h := taEMA 72 raw.close
  trend_close_8h := taEMA 96 raw.close
  trend_open_5m := fun i => some (haOpen raw i)
  trend_open_15m := taEMA 3 (haOpen raw)
  trend_open_30m := taEMA 6 (haOpen raw)
  trend_open_1h := taEMA 12 (haOpen raw)
  trend_open_2h := taEMA 24 (haOpen raw)
  trend_open_4h := taEMA 48 (haOpen raw)
  trend_open_6h := taEMA 72 (haOpen raw)
  trend_open_8h := taEMA 96 (haOpen raw)
  fan_magnitude := fanMagnitude raw
  fan_magnitude_gain := fanMagnitudeGain raw
  tenkan_sen := ichimokuLine 20 (haHigh raw) (haLow raw)
  kijun_sen := ichimokuLine 60 (haHigh raw) (haLow raw)
  senkou_a := shiftN 29 fun i =>
    oHalfSum (ichimokuLine 20 (haHigh raw) (haLow raw) i)
      (ichimokuLine 60 (haHigh raw) (haLow raw) i)
  senkou_b := shiftN 29 (ichimokuLine 120 (haHigh raw) (haLow raw))
  leading_senkou_span_a := fun i =>
    oHalfSum (ichimokuLine 20 (haHigh raw) (haLow raw) i)
      (ichimokuLine 60 (haHigh raw) (haLow raw) i)
  leading_senkou_span_b := ichimokuLine 120 (haHigh raw) (haLow raw)
  cloud_green := fun i =>
    oGT (oHalfSum (ichimokuLine 20 (haHigh raw) (haLow raw) i)
          (ichimokuLine 60 (haHigh raw) (haLow raw) i))
      (ichimokuLine 120 (haHigh raw) (haLow raw) i)
  cloud_red := fun i =>
    oGT (ichimokuLine 120 (haHigh raw) (haLow raw) i)
      (oHalfSum (ichimokuLine 20 (haHigh raw) (haLow raw) i)
        (ichimokuLine 60 (haHigh raw) (haLow raw) i))
  atr := taATR 14 (haHigh raw) (haLow raw) raw.close

/-- The EMA-of-close column at level `k ∈ 1..8` (5m, 15m, …, 8h). -/
def trendCloseAt (f : Frame) : ℕ → Series
  | 1 => f.trend_close_5m
  | 2 => f.trend_close_15m
  | 3 => f.trend_close_30m
  | 4 => f.trend_close_1h
  | 5 => f.trend_close_2h
  | 6 => f.trend_close_4h
  | 7 => f.trend_close_6h
  | _ => f.trend_close_8h

/-- The EMA-of-open column at level `k ∈ 1..8`. -/
def trendOpenAt (f : Frame) : ℕ → Series
  | 1 => f.trend_open_5m
  | 2 => f.trend_open_15m
  | 3 => f.trend_open_30m
  | 4 => f.trend_open_1h
  | 5 => f.trend_open_2h
  | 6 => f.trend_open_4h
  | 7 => f.trend_open_6h
  | _ => f.trend_open_8h

/-- The pair of conditions level `k` contributes to "EMAs above the cloud":
`trend_close_k > senkou_a` and `trend_close_k > senkou_b`. -/
def senkouCondAt (f : Frame) (k i : ℕ) : Bool :=
  oGT (trendCloseAt f k i) (f.senkou_a i) && oGT (trendCloseAt f k i) (f.senkou_b i)

/-- The condition level `k` contributes to "EMAs bullish":
`trend_close_k > trend_open_k`. -/
def bullishCondAt (f : Frame) (k i : ℕ) : Bool :=
  oGT (trendCloseAt f k i) (trendOpenAt f k i)

/-- The conjunction of the `if buy_trend_above_senkou_level >= k` blocks of
`populate_entry_trend`: levels `1..8` are consulted; the pair of cloud
conditions of level `k` is appended exactly when `k ≤ L`. -/
def aboveSenkou (L : ℕ) (f : Frame) (i : ℕ) : Bool :=
  (List.range 8).all fun k => if k + 1 ≤ L then senkouCondAt f (k + 1) i else true

/-- The conjunction of the `if buy_trend_bullish_level >= k` blocks of
`populate_entry_trend`. -/
def bullishAll (L : ℕ) (f : Frame) (i : ℕ) : Bool :=
  (List.range 8).all fun k => if k + 1 ≤ L then bullishCondAt f (k + 1) i else true

/-- The `for x in range(buy_fan_magnitude_shift_value)` conditions:
`fan_magnitude.shift(x + 1) < fan_magnitude` for each `x`. -/
def shiftIncreasing (S : ℕ) (f : Frame) (i : ℕ) : Bool :=
  (List.range S).all fun x =>
    oLT (shiftN (x + 1) f.fan_magnitude i) (f.fan_magnitude i)

/-- The row mask of `populate_entry_trend` of the IchiV1 variants: the AND
of all appended conditions (`reduce(lambda x, y: x & y, conditions)`). -/
def entryMask (p : BuyParams) (f : Frame) (i : ℕ) : Bool :=
  aboveSenkou p.buy_trend_above_senkou_level f i
    && bullishAll p.buy_trend_bullish_level f i
    && oGE (f.fan_magnitude_gain i) (some p.buy_min_fan_magnitude_gain)
    && oGT (f.fan_magnitude i) (some 1)
    && shiftIncreasing p.buy_fan_magnitude_shift_value f i

/-- `populate_entry_trend` of `IchiV1_Fixed` / `IchiV1_Optimizable`:
`dataframe.loc[reduce(and, conditions), 'enter_long'] = 1` (the conditions
list is never empty: the fan-magnitude conditions are unconditional). -/
def populate_entry_trend (p : BuyParams) (f : Frame) (i : ℕ) : Option ℚ :=
  if entryMask p f i then some 1 else none

/-- The categorical `sell_trend_indicator` choice: one of the eight
`trend_close_*` columns. -/
inductive TrendCol
  | t5m | t15m | t30m | t1h | t2h | t4h | t6h | t8h

/-- The column a `sell_trend_indicator` value designates. -/
def sellTrendCol : TrendCol → Frame → Series
  | .t5m, f => f.trend_close_5m
  | .t15m, f => f.trend_close_15m
  | .t30m, f => f.trend_close_30m
  | .t1h, f => f.trend_close_1h
  | .t2h, f => f.trend_close_2h
  | .t4h, f => f.trend_close_4h
  | .t6h, f => f.trend_close_6h
  | .t8h, f => f.trend_close_8h

/-- `populate_exit_trend` of `IchiV1_Fixed` / `IchiV1_Optimizable`:
`dataframe.loc[crossed_below(trend_close_5m, <sell_trend_indicator>), 'exit_long'] = 1`. -/
def populate_exit_trend (sel : TrendCol) (f : Frame) (i : ℕ) : Option ℚ :=
  if crossed_below f.trend_close_5m (sellTrendCol sel f) i then some 1 else none

end IchiV1

namespace IchiV1_Fixed

/-- `IchiV1_Fixed.buy_params`: senkou level 1, bullish level 4,
minimum fan-magnitude gain 1.001, shift value 1. -/
def buy_params : IchiV1.BuyParams := ⟨1, 4, 1001 / 1000, 1⟩

/-- `IchiV1_Fixed.sell_params`: `sell_trend_indicator = "trend_close_30m"`. -/
def sell_trend_indicator : IchiV1.TrendCol := .t30m

end IchiV1_Fixed

namespace IchiV1_Optimizable

/-- `IchiV1_Optimizable.buy_params` defaults: senkou level 1, bullish level 6,
minimum fan-magnitude gain 1.002, shift value 3. -/
def buy_params : IchiV1.BuyParams := ⟨1, 6, 1002 / 1000, 3⟩

/-- `IchiV1_Optimizable.sell_params` default. -/
def sell_trend_indicator : IchiV1.TrendCol := .t30m

end IchiV1_Optimizable

/- ---------------------------------------------------------------------
Definitions written from the spec's words, for comparison with the code
(refinement direction), and concrete test fixtures used by counterexample
and witness theorems.
--------------------------------------------------------------------- -/

/-- The spec's "crosses below" relation, written from its words: true at
row `i` iff price and indicator are defined at rows `i - 1` and `i`, the
price was at/above the indicator at `i - 1` and is below it at `i`;
false when any of the four inputs is undefined (in particular at row 0). -/
def crossesBelowSpec (s1 s2 : Series) (i : ℕ) : Prop :=
  1 ≤ i ∧ ∃ a b c d : ℚ,
    s1 (i - 1) = some a ∧ s2 (i - 1) = some b ∧
    s1 i = some c ∧ s2 i = some d ∧ b ≤ a ∧ c < d

/-- The four row conditions claim C1 asserts to be equivalent to the entry
flag (written from the spec sentence): `trend_close_5m > senkou_a`,
`trend_close_5m > senkou_b`, `trend_close_5m > trend_open_5m`,
`fan_magnitude > 1`. -/
def c1SpecConds (f : IchiV1.Frame) (i : ℕ) : Bool :=
  oGT (f.trend_close_5m i) (f.senkou_a i)
    && oGT (f.trend_close_5m i) (f.senkou_b i)
    && oGT (f.trend_close_5m i) (f.trend_open_5m i)
    && oGT (f.fan_magnitude i) (some 1)

/-- The parameter assignment claim C1 fixes:
`buy_trend_above_senkou_level = 1`, `buy_trend_bullish_level = 1`,
`buy_min_fan_magnitude_gain = 1.0`, `buy_fan_magnitude_shift_value = 0`. -/
def c1Params : IchiV1.BuyParams := ⟨1, 1, 1, 0⟩

/-- Fixture: a 15-row candle series with strictly falling closes
(`close_i = 15 - i`) and constant volume 1. -/
def rawA : RawFrame :=
  ⟨15, fun i => 15 - (i : ℚ), fun i => 15 - (i : ℚ), fun i => 15 - (i : ℚ),
    fun i => 15 - (i : ℚ), fun _ => 1⟩

/-- Fixture: a 15-row candle series with strictly falling closes that end
negative (`close_i = 7 - i`, so `close_14 = -7`) and constant volume 1. -/
def rawB : RawFrame :=
  ⟨15, fun i => 7 - (i : ℚ), fun i => 7 - (i : ℚ), fun i => 7 - (i : ℚ),
    fun i => 7 - (i : ℚ), fun _ => 1⟩

/-- Fixture: a 2-row constant candle series. -/
def rawC : RawFrame := ⟨2, fun _ => 1, fun _ => 1, fun _ => 1, fun _ => 1, fun _ => 1⟩

/-- Fixture: a 1-row candle series with `open = 0`, `close = 2` (so the
Heikin-Ashi open `(open + close) / 2 = 1` differs from the raw open). -/
def rawD : RawFrame := ⟨1, fun _ => 0, fun _ => 8, fun _ => 0, fun _ => 2, fun _ => 1⟩

/-- Fixture: a 2-row candle series whose row 0 is `(o,h,l,c) = (0,8,0,0)`,
making the Heikin-Ashi close of row 0 equal 2 while the raw close is 0. -/
def rawE : RawFrame :=
  ⟨2, fun _ => 0, fun i => if i = 0 then 8 else 0, fun _ => 0, fun _ => 0, fun _ => 1⟩

/-- Fixture: an indicator-stage output frame whose columns satisfy the
defining relations of the columns the entry logic reads
(`trend_close_5m = close`, `trend_open_5m = open`,
`fan_magnitude = trend_close_1h / trend_close_8h`,
`fan_magnitude_gain = fan_magnitude / fan_magnitude.shift(1)`), with the
fan magnitude above 1 but decreasing at row 1. -/
def c1Frame : IchiV1.Frame where
  n := 2
  open_ := fun _ => 5
  high := fun _ => 12
  low := fun _ => 1
  close := fun i => if i = 0 then 8 else 10
  volume := fun _ => 1
  trend_close_5m := fun i => some (if i = 0 then 8 else 10)
  trend_close_15m := fun _ => some 9
  trend_close_30m := fun _ => some 9
  trend_close_1h := fun i => some (if i = 0 then 4 else 3)
  trend_close_2h := fun _ => some 9
  trend_close_4h := fun _ => some 9
  trend_close_6h := fun _ => some 9
  trend_close_8h := fun _ => some 2
  trend_open_5m := fun _ => some 5
  trend_open_15m := fun _ => some 5
  trend_open_30m := fun _ => some 5
  trend_open_1h := fun _ => some 5
  trend_open_2h := fun _ => some 5
  trend_open_4h := fun _ => some 5
  trend_open_6h := fun _ => some 5
  trend_open_8h := fun _ => some 5
  fan_magnitude := fun i => if i = 0 then some 2 else some (3 / 2)
  fan_magnitude_gain := fun i => if i = 0 then none else some (3 / 4)
  tenkan_sen := fun _ => none
  kijun_sen := fun _ => none
  senkou_a := fun _ => some 1
  senkou_b := fun _ => some (3 / 2)
  leading_senkou_span_a := fun _ => none
  leading_senkou_span_b := fun _ => none
  cloud_green := fun _ => false
  cloud_red := fun _ => false
  atr := fun _ => none

/-- Fixture: like `c1Frame` but with the fan magnitude increasing at row 1
(`fan_magnitude` 1 then 2), so the entry fires there even under raised
levels; `trend_close_15m = 9 > trend_open_15m = 3` and both 15m and 5m
EMAs clear the cloud boundaries. -/
def c10Frame : IchiV1.Frame where
  n := 2
  open_ := fun _ => 5
  high := fun _ => 12
  low := fun _ => 1
  close := fun i => if i = 0 then 8 else 10
  volume := fun _ => 1
  trend_close_5m := fun i => some (if i = 0 then 8 else 10)
  trend_close_15m := fun _ => some 9
  trend_close_30m := fun _ => some 9
  trend_close_1h := fun i => some (if i = 0 then 2 else 4)
  trend_close_2h := fun _ => some 9
  trend_close_4h := fun _ => some 9
  trend_close_6h := fun _ => some 9
  trend_close_8h := fun _ => some 2
  trend_open_5m := fun _ => some 5
  trend_open_15m := fun _ => some 3
  trend_open_30m := fun _ => some 3
  trend_open_1h := fun _ => some 3
  trend_open_2h := fun _ => some 3
  trend_open_4h := fun _ => some 3
  trend_open_6h := fun _ => some 3
  trend_open_8h := fun _ => some 3
  fan_magnitude := fun i => if i = 0 then some 1 else some 2
  fan_magnitude_gain := fun i => if i = 0 then none else some 2
  tenkan_sen := fun _ => none
  kijun_sen := fun _ => none
  senkou_a := fun _ => some 1
  senkou_b := fun _ => some (3 / 2)
  leading_senkou_span_a := fun _ => none
  leading_senkou_span_b := fun _ => none
  cloud_green := fun _ => false
  cloud_red := fun _ => false
  atr := fun _ => none

/-- Fixture: a `GridStrategy` indicator frame with RSI 20 (< 40), unit
close and volume, all other indicator columns missing. -/
def c4GridFrame : GridStrategy.Frame where
  n := 1
  open_ := fun _ => 1
  high := fun _ => 1
  low := fun _ => 1
  close := fun _ => 1
  volume := fun _ => 1
  sma_20 := fun _ => none
  sma_50 := fun _ => none
  rsi := fun _ => some 20
  atr := fun _ => none
  bb_lowerband := fun _ => none
  bb_upperband := fun _ => none
  bb_middleband := fun _ => none
  grid_buy_level := fun _ => none
  grid_sell_level := fun _ => none
  volume_sma := fun _ => none

/-- Fixture: a `GridStrategyV2` indicator frame with RSI 20 (< 30). -/
def c4V2Frame : GridStrategyV2.Frame where
  n := 1
  open_ := fun _ => 1
  high := fun _ => 1
  low := fun _ => 1
  close := fun _ => 1
  volume := fun _ => 1
  bb_lowerband := fun _ => none
  bb_upperband := fun _ => none
  bb_middleband := fun _ => none
  rsi := fun _ => some 20
  volume_sma := fun _ => none

/- ---------------------------------------------------------------------
Helper lemmas about the embedded operations.
--------------------------------------------------------------------- -/

theorem oDiv_none_right (x : Option ℚ) : oDiv x none = none := by
  cases x <;> rfl

theorem oDiv_none_left (x : Option ℚ) : oDiv none x = none := rfl

theorem shiftN_eq_of_le {k i : ℕ} (h : k ≤ i) (s : Series) :
    shiftN k s i = s (i - k) := by
  unfold shiftN
  rw [if_neg (by omega)]

theorem shiftN_eq_none {k i : ℕ} (h : i < k) (s : Series) :
    shiftN k s i = none := by
  unfold shiftN
  rw [if_pos h]

theorem taEMA_undef {p : ℕ} (f : ℕ → ℚ) {i : ℕ} (h : i + 1 < p) :
    taEMA p f i = none := by
  cases i with
  | zero =>
    unfold taEMA
    rw [if_neg (by omega)]
  | succ j =>
    unfold taEMA
    rw [if_pos (by omega)]

theorem taRSI_undef {p : ℕ} (f : ℕ → ℚ) {i : ℕ} (h : i < p) :
    taRSI p f i = none := by
  unfold taRSI
  rw [if_pos h]

theorem oGT_none_left (x : Option ℚ) : oGT none x = false := rfl

theorem oGT_none_right (x : Option ℚ) : oGT x none = false := by
  cases x <;> rfl

/-- A `.loc[mask, col] = 1` flag column evaluated at one row is either the
assigned 1 or the fresh column's missing value. -/
theorem flag_one_or_none (c : Bool) :
    (if c then (some 1 : Option ℚ) else none) = some 1 ∨
      (if c then (some 1 : Option ℚ) else none) = none := by
  cases c <;> simp

/-- A `.loc[mask, col] = 1` flag column holds 1 at a row iff the mask is
true there. -/
theorem flag_eq_one_iff (c : Bool) :
    ((if c then (some 1 : Option ℚ) else none) = some 1) ↔ c = true := by
  cases c <;> simp

/-- A `.loc[mask, col] = 1` flag column is missing at a row iff the mask is
false there. -/
theorem flag_eq_none_iff (c : Bool) :
    ((if c then (some 1 : Option ℚ) else none) = none) ↔ c = false := by
  cases c <;> simp

/-- The Wilder seed: at row `i + 1 ≤ p` the smoothed value is the mean of
`d 1, …, d p`. -/
theorem wilderSmooth_seed {p i : ℕ} (d : ℕ → ℚ) (h1 : i + 1 ≤ p) :
    wilderSmooth p d (i + 1) =
      (((List.range p).map fun j => d (j + 1)).sum) / (p : ℚ) := by
  unfold wilderSmooth
  rw [if_pos h1]

theorem map_range_congr {α : Type} (n : ℕ) (f g : ℕ → α)
    (h : ∀ j < n, f j = g j) :
    (List.range n).map f = (List.range n).map g := by
  apply List.map_congr_left
  intro j hj
  exact h j (List.mem_range.mp hj)

namespace IchiV1

theorem ichiEntryFlag_iff (p : BuyParams) (f : Frame) (i : ℕ) :
    populate_entry_trend p f i = some 1 ↔ entryMask p f i = true :=
  flag_eq_one_iff _

theorem ichiExitFlag_iff (sel : TrendCol) (f : Frame) (i : ℕ) :
    populate_exit_trend sel f i = some 1 ↔
      crossed_below f.trend_close_5m (sellTrendCol sel f) i = true :=
  flag_eq_one_iff _

theorem aboveSenkou_iff (L : ℕ) (f : Frame) (i : ℕ) :
    aboveSenkou L f i = true ↔
      ∀ k < 8, k + 1 ≤ L → senkouCondAt f (k + 1) i = true := by
  unfold aboveSenkou
  rw [List.all_eq_true]
  constructor
  · intro h k hk hkL
    have h' := h k (List.mem_range.mpr hk)
    simpa [if_pos hkL] using h'
  · intro h k hk
    by_cases hkL : k + 1 ≤ L
    · simpa [if_pos hkL] using h k (List.mem_range.mp hk) hkL
    · simp [if_neg hkL]

theorem bullishAll_iff (L : ℕ) (f : Frame) (i : ℕ) :
    bullishAll L f i = true ↔
      ∀ k < 8, k + 1 ≤ L → bullishCondAt f (k + 1) i = true := by
  unfold bullishAll
  rw [List.all_eq_true]
  constructor
  · intro h k hk hkL
    have h' := h k (List.mem_range.mpr hk)
    simpa [if_pos hkL] using h'
  · intro h k hk
    by_cases hkL : k + 1 ≤ L
    · simpa [if_pos hkL] using h k (List.mem_range.mp hk) hkL
    · simp [if_neg hkL]

theorem shiftIncreasing_iff (S : ℕ) (f : Frame) (i : ℕ) :
    shiftIncreasing S f i = true ↔
      ∀ x < S, oLT (shiftN (x + 1) f.fan_magnitude i) (f.fan_magnitude i) = true := by
  unfold shiftIncreasing
  rw [List.all_eq_true]
  constructor
  · intro h x hx
    simpa using h x (List.mem_range.mpr hx)
  · intro h x hx
    simpa using h x (List.mem_range.mp hx)

theorem entryMask_eq_true_iff (p : BuyParams) (f : Frame) (i : ℕ) :
    entryMask p f i = true ↔
      aboveSenkou p.buy_trend_above_senkou_level f i = true ∧
      bullishAll p.buy_trend_bullish_level f i = true ∧
      oGE (f.fan_magnitude_gain i) (some p.buy_min_fan_magnitude_gain) = true ∧
      oGT (f.fan_magnitude i) (some 1) = true ∧
      shiftIncreasing p.buy_fan_magnitude_shift_value f i = true := by
  unfold entryMask
  simp [Bool.and_eq_true, and_assoc]

end IchiV1

namespace GridStrategy

theorem gridEntryFlag_iff (f : Frame) (i : ℕ) :
    populate_entry_trend f i = some 1 ↔ entryMask f i = true :=
  flag_eq_one_iff _

theorem gridExitFlag_iff (f : Frame) (i : ℕ) :
    populate_exit_trend f i = some 1 ↔ exitMask f i = true :=
  flag_eq_one_iff _

end GridStrategy

namespace GridStrategyV2

theorem gridV2EntryFlag_iff (f : Frame) (i : ℕ) :
    populate_entry_trend f i = some 1 ↔ entryMask f i = true :=
  flag_eq_one_iff _

theorem gridV2ExitFlag_iff (f : Frame) (i : ℕ) :
    populate_exit_trend f i = some 1 ↔ exitMask f i = true :=
  flag_eq_one_iff _

end GridStrategyV2

/- ---------------------------------------------------------------------
Claim theorems.
--------------------------------------------------------------------- -/

/-- Claim C2, counterexample: the claim asserts that the dynamic stop-loss
hook of *each* Grid variant returns -0.02 whenever `current_profit > 0.01`;
but `GridStrategyV2` defines no `custom_stoploss` override, so its dynamic
stop at `current_profit = 0.015` is its configured -0.06, not -0.02. -/
theorem C2_counterexample :
    GridStrategyV2.custom_stoploss_default ("BTC/USDT") 0 0 (15 / 1000) = -(6 / 100) ∧
    (-(6 / 100) : ℚ) ≠ -(2 / 100) := by
  refine ⟨rfl, by norm_num⟩

/-- Claim C2, amended: `GridStrategy.custom_stoploss` is the two-tier
piecewise function of `current_profit` alone (-0.02 above profit 0.01, the
configured -0.05 otherwise, for every pair, time and rate); `GridStrategyV2`
has no `custom_stoploss` override, so its stop is the configured -0.06 at
every profit level. -/
theorem C2_stoploss_amended (pair : String) (t : ℤ) (rate profit : ℚ) :
    (1 / 100 < profit →
      GridStrategy.custom_stoploss pair t rate profit = -(2 / 100)) ∧
    (profit ≤ 1 / 100 →
      GridStrategy.custom_stoploss pair t rate profit = GridStrategy.stoploss) ∧
    GridStrategyV2.custom_stoploss_default pair t rate profit = GridStrategyV2.stoploss := by
  refine ⟨?_, ?_, rfl⟩
  · intro h
    unfold GridStrategy.custom_stoploss
    rw [if_pos h]
  · intro h
    unfold GridStrategy.custom_stoploss
    rw [if_neg (not_lt.mpr h)]

/-- Claim C2 witness: the amended statement evaluated at profits 0.015 and
0.005 for a concrete pair, time and rate. -/
theorem C2_stoploss_amended_witness :
    GridStrategy.custom_stoploss ("BTC/USDT") 0 0 (15 / 1000) = -(2 / 100) ∧
    GridStrategy.custom_stoploss ("BTC/USDT") 0 0 (5 / 1000) = GridStrategy.stoploss ∧
    GridStrategyV2.custom_stoploss_default ("BTC/USDT") 0 0 (15 / 1000) =
      GridStrategyV2.stoploss :=
  ⟨(C2_stoploss_amended ("BTC/USDT") 0 0 (15 / 1000)).1 (by norm_num),
   (C2_stoploss_amended ("BTC/USDT") 0 0 (5 / 1000)).2.1 (by norm_num),
   (C2_stoploss_amended ("BTC/USDT") 0 0 (15 / 1000)).2.2⟩

/-- Claim C5, counterexample: the claim asserts every variant's indicator
stage leaves `open` unchanged, but the IchiV1 indicator stage overwrites
`open` with the Heikin-Ashi open: on `rawD` (`open = 0`, `close = 2`) the
returned open at row 0 is 1, not the original 0. -/
theorem C5_counterexample :
    (IchiV1.populate_indicators rawD).open_ 0 = 1 ∧
    rawD.open_ 0 = 0 ∧ (1 : ℚ) ≠ 0 := by
  refine ⟨?_, rfl, by norm_num⟩
  show haOpen rawD 0 = 1
  norm_num [haOpen, rawD]

/-- Claim C5, amended: the Grid variants' indicator stages only augment —
open, high, low, close and volume are returned unchanged at every row —
while the IchiV1 indicator stage overwrites open, high and low with the
Heikin-Ashi values and leaves close and volume unchanged. -/
theorem C5_frame_amended (raw : RawFrame) (i : ℕ) :
    ((GridStrategy.populate_indicators raw).open_ i = raw.open_ i ∧
      (GridStrategy.populate_indicators raw).high i = raw.high i ∧
      (GridStrategy.populate_indicators raw).low i = raw.low i ∧
      (GridStrategy.populate_indicators raw).close i = raw.close i ∧
      (GridStrategy.populate_indicators raw).volume i = raw.volume i) ∧
    ((GridStrategyV2.populate_indicators raw).open_ i = raw.open_ i ∧
      (GridStrategyV2.populate_indicators raw).high i = raw.high i ∧
      (GridStrategyV2.populate_indicators raw).low i = raw.low i ∧
      (GridStrategyV2.populate_indicators raw).close i = raw.close i ∧
      (GridStrategyV2.populate_indicators raw).volume i = raw.volume i) ∧
    ((IchiV1.populate_indicators raw).open_ i = haOpen raw i ∧
      (IchiV1.populate_indicators raw).high i = haHigh raw i ∧
      (IchiV1.populate_indicators raw).low i = haLow raw i ∧
      (IchiV1.populate_indicators raw).close i = raw.close i ∧
      (IchiV1.populate_indicators raw).volume i = raw.volume i) :=
  ⟨⟨rfl, rfl, rfl, rfl, rfl⟩, ⟨rfl, rfl, rfl, rfl, rfl⟩, rfl, rfl, rfl, rfl, rfl⟩

/-- Claim C7, counterexample: the claim says the smoothed open at row `i`
is the average of the previous smoothed open and the previous *raw* close;
on `rawE` (row 0 `(o,h,l,c) = (0,8,0,0)`) the code's smoothed open at row 1
is `(0 + 2) / 2 = 1` (the recursion uses the Heikin-Ashi close
`(o+h+l+c)/4 = 2`), while the claim's value `(0 + 0) / 2 = 0`. -/
theorem C7_counterexample :
    (IchiV1.populate_indicators rawE).open_ 1 = 1 ∧
    ((IchiV1.populate_indicators rawE).open_ 0 + rawE.close 0) / 2 = 0 ∧
    (1 : ℚ) ≠ 0 := by
  refine ⟨?_, ?_, by norm_num⟩
  · show haOpen rawE 1 = 1
    norm_num [haOpen, haClose, rawE]
  · show (haOpen rawE 0 + rawE.close 0) / 2 = 0
    norm_num [haOpen, rawE]

/-- Claim C7, amended: the Heikin-Ashi transform of the IchiV1 indicator
stage satisfies `smoothed-open 0 = (open 0 + close 0) / 2`,
`smoothed-open (i+1) = (smoothed-open i + haClose i) / 2` where
`haClose = (open + high + low + close) / 4` is the Heikin-Ashi close (not
the raw close), `smoothed-high = max(high, smoothed-open, haClose)`,
`smoothed-low = min(low, smoothed-open, haClose)`, and the strategy's close
column is left unsmoothed. -/
theorem C7_heikinashi_amended (raw : RawFrame) (i : ℕ) :
    (IchiV1.populate_indicators raw).open_ 0 = (raw.open_ 0 + raw.close 0) / 2 ∧
    (IchiV1.populate_indicators raw).open_ (i + 1) =
      ((IchiV1.populate_indicators raw).open_ i + haClose raw i) / 2 ∧
    haClose raw i = (raw.open_ i + raw.high i + raw.low i + raw.close i) / 4 ∧
    (IchiV1.populate_indicators raw).high i =
      max (raw.high i) (max ((IchiV1.populate_indicators raw).open_ i) (haClose raw i)) ∧
    (IchiV1.populate_indicators raw).low i =
      min (raw.low i) (min ((IchiV1.populate_indicators raw).open_ i) (haClose raw i)) ∧
    (IchiV1.populate_indicators raw).close i = raw.close i :=
  ⟨rfl, rfl, rfl, rfl, rfl, rfl⟩

/-- Claim C8: in the IchiV1 indicator stage, `fan_magnitude_gain` is
undefined at row 0, equals `fan_magnitude i / fan_magnitude (i-1)` at every
row `i ≥ 1` (NaN-propagating division), and `fan_magnitude` is the ratio
`trend_close_1h / trend_close_8h`. -/
theorem C8_fan_magnitude_gain (raw : RawFrame) (i : ℕ) :
    (IchiV1.populate_indicators raw).fan_magnitude_gain 0 = none ∧
    (1 ≤ i →
      (IchiV1.populate_indicators raw).fan_magnitude_gain i =
        oDiv ((IchiV1.populate_indicators raw).fan_magnitude i)
          ((IchiV1.populate_indicators raw).fan_magnitude (i - 1))) ∧
    (IchiV1.populate_indicators raw).fan_magnitude i =
      oDiv ((IchiV1.populate_indicators raw).trend_close_1h i)
        ((IchiV1.populate_indicators raw).trend_close_8h i) := by
  refine ⟨?_, ?_, rfl⟩
  · show IchiV1.fanMagnitudeGain raw 0 = none
    unfold IchiV1.fanMagnitudeGain
    rw [shiftN_eq_none (by omega), oDiv_none_right]
  · intro h
    show IchiV1.fanMagnitudeGain raw i = _
    unfold IchiV1.fanMagnitudeGain
    rw [shiftN_eq_of_le h]
    rfl

/-- Claim C8 witness: the gain relation evaluated at row 1 of a concrete
series. -/
theorem C8_fan_magnitude_gain_witness :
    (IchiV1.populate_indicators rawC).fan_magnitude_gain 1 =
      oDiv ((IchiV1.populate_indicators rawC).fan_magnitude 1)
        ((IchiV1.populate_indicators rawC).fan_magnitude 0) :=
  (C8_fan_magnitude_gain rawC 1).2.1 (by norm_num)

/-- Claim C6: for every configured `sell_trend_indicator` column (covering
`IchiV1_Fixed`, whose configuration fixes `trend_close_30m`, and every
choice of `IchiV1_Optimizable`), the exit flag is set at a row iff the
spec's "crosses below" relation holds there between `trend_close_5m` and
the selected column: previous price at/above the previous indicator value,
current price below the current one, all four values defined (so the
relation is false at row 0 and at any row with an undefined input). -/
theorem C6_exit_crosses_below (sel : IchiV1.TrendCol) (f : IchiV1.Frame) (i : ℕ) :
    IchiV1.populate_exit_trend sel f i = some 1 ↔
      crossesBelowSpec f.trend_close_5m (IchiV1.sellTrendCol sel f) i := by
  rw [IchiV1.ichiExitFlag_iff]
  unfold crossed_below crossesBelowSpec
  cases i with
  | zero =>
    rw [shiftN_eq_none (by omega) f.trend_close_5m,
      shiftN_eq_none (by omega) (IchiV1.sellTrendCol sel f)]
    simp [oGE]
  | succ j =>
    rw [shiftN_eq_of_le (by omega) f.trend_close_5m,
      shiftN_eq_of_le (by omega) (IchiV1.sellTrendCol sel f)]
    simp only [Nat.add_sub_cancel]
    rcases h3 : f.trend_close_5m j with _ | a <;>
      rcases h4 : IchiV1.sellTrendCol sel f j with _ | b <;>
        rcases h1 : f.trend_close_5m (j + 1) with _ | c <;>
          rcases h2 : IchiV1.sellTrendCol sel f (j + 1) with _ | d <;>
            simp [oLT, oGE, h1, h2, h3, h4, Nat.succ_le_succ] <;> tauto

/-- Claim C9: every signal-derivation function of every variant only ever
writes the value 1 into its flag column — at each row the flag is either 1
or missing, and it is 1 exactly where the function's row condition holds
(rows failing the condition are left missing, never set to 0). -/
theorem C9_flags_one_or_missing (p : IchiV1.BuyParams) (sel : IchiV1.TrendCol)
    (f : IchiV1.Frame) (g : GridStrategy.Frame) (v : GridStrategyV2.Frame) (i : ℕ) :
    (IchiV1.populate_entry_trend p f i = some 1 ∨
      IchiV1.populate_entry_trend p f i = none) ∧
    (IchiV1.populate_entry_trend p f i = some 1 ↔ IchiV1.entryMask p f i = true) ∧
    (IchiV1.populate_exit_trend sel f i = some 1 ∨
      IchiV1.populate_exit_trend sel f i = none) ∧
    (IchiV1.populate_exit_trend sel f i = some 1 ↔
      crossed_below f.trend_close_5m (IchiV1.sellTrendCol sel f) i = true) ∧
    (GridStrategy.populate_entry_trend g i = some 1 ∨
      GridStrategy.populate_entry_trend g i = none) ∧
    (GridStrategy.populate_entry_trend g i = some 1 ↔ GridStrategy.entryMask g i = true) ∧
    (GridStrategy.populate_exit_trend g i = some 1 ∨
      GridStrategy.populate_exit_trend g i = none) ∧
    (GridStrategy.populate_exit_trend g i = some 1 ↔ GridStrategy.exitMask g i = true) ∧
    (GridStrategyV2.populate_entry_trend v i = some 1 ∨
      GridStrategyV2.populate_entry_trend v i = none) ∧
    (GridStrategyV2.populate_entry_trend v i = some 1 ↔
      GridStrategyV2.entryMask v i = true) ∧
    (GridStrategyV2.populate_exit_trend v i = some 1 ∨
      GridStrategyV2.populate_exit_trend v i = none) ∧
    (GridStrategyV2.populate_exit_trend v i = some 1 ↔
      GridStrategyV2.exitMask v i = true) :=
  ⟨flag_one_or_none _, IchiV1.ichiEntryFlag_iff p f i,
   flag_one_or_none _, IchiV1.ichiExitFlag_iff sel f i,
   flag_one_or_none _, GridStrategy.gridEntryFlag_iff g i,
   flag_one_or_none _, GridStrategy.gridExitFlag_iff g i,
   flag_one_or_none _, GridStrategyV2.gridV2EntryFlag_iff v i,
   flag_one_or_none _, GridStrategyV2.gridV2ExitFlag_iff v i⟩

/-- Claim C1, counterexample: at the claim's parameter values the code also
requires `fan_magnitude_gain >= 1.0`; on `c1Frame` row 1 all four spec
conditions hold (and the fan columns satisfy their defining ratios), yet the
entry flag is not set because the gain `3/4` is below 1. -/
theorem C1_counterexample :
    c1SpecConds c1Frame 1 = true ∧
    IchiV1.populate_entry_trend c1Params c1Frame 1 = none ∧
    c1Frame.fan_magnitude 1 =
      oDiv (c1Frame.trend_close_1h 1) (c1Frame.trend_close_8h 1) ∧
    c1Frame.fan_magnitude_gain 1 =
      oDiv (c1Frame.fan_magnitude 1) (c1Frame.fan_magnitude 0) := by
  refine ⟨?_, ?_, ?_, ?_⟩
  · norm_num [c1SpecConds, c1Frame, oGT]
  · refine (flag_eq_none_iff _).mpr ?_
    have hg : oGE (c1Frame.fan_magnitude_gain 1)
        (some c1Params.buy_min_fan_magnitude_gain) = false := by
      norm_num [c1Frame, c1Params, oGE]
    unfold IchiV1.entryMask
    rw [hg]
    simp
  · norm_num [c1Frame, oDiv]
  · norm_num [c1Frame, oDiv]

/-- Claim C1, amended: with `buy_trend_above_senkou_level = 1`,
`buy_trend_bullish_level = 1`, `buy_min_fan_magnitude_gain = 1.0` and
`buy_fan_magnitude_shift_value = 0`, the entry flag is set at row `i` iff
the four spec conditions hold there *and* `fan_magnitude_gain i ≥ 1` (the
gain conjunct is part of the code's condition list for every parameter
assignment and is not implied by the other four). -/
theorem C1_entry_iff_amended (f : IchiV1.Frame) (i : ℕ) :
    IchiV1.populate_entry_trend c1Params f i = some 1 ↔
      (c1SpecConds f i = true ∧ oGE (f.fan_magnitude_gain i) (some 1) = true) := by
  rw [IchiV1.ichiEntryFlag_iff, IchiV1.entryMask_eq_true_iff]
  have e1 : c1Params.buy_trend_above_senkou_level = 1 := rfl
  have e2 : c1Params.buy_trend_bullish_level = 1 := rfl
  have e3 : c1Params.buy_min_fan_magnitude_gain = 1 := rfl
  have e4 : c1Params.buy_fan_magnitude_shift_value = 0 := rfl
  rw [e1, e2, e3, e4, IchiV1.aboveSenkou_iff, IchiV1.bullishAll_iff,
    IchiV1.shiftIncreasing_iff]
  unfold c1SpecConds
  simp only [Bool.and_eq_true]
  constructor
  · rintro ⟨hs, hb, hg, hf, _⟩
    have h1 : IchiV1.senkouCondAt f 1 i = true := hs 0 (by omega) (by omega)
    have h2 : IchiV1.bullishCondAt f 1 i = true := hb 0 (by omega) (by omega)
    simp only [IchiV1.senkouCondAt, IchiV1.trendCloseAt, Bool.and_eq_true] at h1
    simp only [IchiV1.bullishCondAt, IchiV1.trendCloseAt, IchiV1.trendOpenAt] at h2
    exact ⟨⟨⟨⟨h1.1, h1.2⟩, h2⟩, hf⟩, hg⟩
  · rintro ⟨⟨⟨⟨h1, h2⟩, h3⟩, h4⟩, hg⟩
    refine ⟨?_, ?_, hg, h4, ?_⟩
    · intro k hk hkL
      have hk0 : k = 0 := by omega
      subst hk0
      show IchiV1.senkouCondAt f 1 i = true
      simp only [IchiV1.senkouCondAt, IchiV1.trendCloseAt, Bool.and_eq_true]
      exact ⟨h1, h2⟩
    · intro k hk hkL
      have hk0 : k = 0 := by omega
      subst hk0
      show IchiV1.bullishCondAt f 1 i = true
      simp only [IchiV1.bullishCondAt, IchiV1.trendCloseAt, IchiV1.trendOpenAt]
      exact h3
    · intro x hx
      exact absurd hx (by omega)

/-- Claim C10: the IchiV1 entry signal is antitone in each of the three
level parameters — raising `buy_trend_above_senkou_level`,
`buy_trend_bullish_level` or `buy_fan_magnitude_shift_value` only adds
AND-conjuncts, so every row flagged under the higher value is flagged
under the lower one. -/
theorem C10_entry_antitone (f : IchiV1.Frame) (i : ℕ) (a a' b b' : ℕ) (g : ℚ)
    (s s' : ℕ) (ha : a ≤ a') (hb : b ≤ b') (hs : s ≤ s') :
    (IchiV1.populate_entry_trend ⟨a', b, g, s⟩ f i = some 1 →
      IchiV1.populate_entry_trend ⟨a, b, g, s⟩ f i = some 1) ∧
    (IchiV1.populate_entry_trend ⟨a, b', g, s⟩ f i = some 1 →
      IchiV1.populate_entry_trend ⟨a, b, g, s⟩ f i = some 1) ∧
    (IchiV1.populate_entry_trend ⟨a, b, g, s'⟩ f i = some 1 →
      IchiV1.populate_entry_trend ⟨a, b, g, s⟩ f i = some 1) := by
  simp only [IchiV1.ichiEntryFlag_iff, IchiV1.entryMask_eq_true_iff,
    IchiV1.aboveSenkou_iff, IchiV1.bullishAll_iff, IchiV1.shiftIncreasing_iff]
  refine ⟨?_, ?_, ?_⟩ <;> rintro ⟨h1, h2, h3, h4, h5⟩
  · exact ⟨fun k hk hkL => h1 k hk (hkL.trans ha), h2, h3, h4, h5⟩
  · exact ⟨h1, fun k hk hkL => h2 k hk (hkL.trans hb), h3, h4, h5⟩
  · exact ⟨h1, h2, h3, h4, fun x hx => h5 x (lt_of_lt_of_le hx hs)⟩

theorem c10_eval_senkou2 :
    IchiV1.populate_entry_trend ⟨2, 1, 1, 0⟩ c10Frame 1 = some 1 := by
  rw [IchiV1.ichiEntryFlag_iff, IchiV1.entryMask_eq_true_iff]
  dsimp only
  refine ⟨?_, ?_, ?_, ?_, ?_⟩
  · rw [IchiV1.aboveSenkou_iff]
    intro k hk hkL
    have hkb : k ≤ 1 := by omega
    interval_cases k <;>
      norm_num [IchiV1.senkouCondAt, IchiV1.trendCloseAt, c10Frame, oGT]
  · rw [IchiV1.bullishAll_iff]
    intro k hk hkL
    have hkb : k ≤ 0 := by omega
    interval_cases k <;>
      norm_num [IchiV1.bullishCondAt, IchiV1.trendCloseAt, IchiV1.trendOpenAt,
        c10Frame, oGT]
  · norm_num [c10Frame, oGE]
  · norm_num [c10Frame, oGT]
  · rw [IchiV1.shiftIncreasing_iff]
    intro x hx
    exact absurd hx (by omega)

theorem c10_eval_bullish2 :
    IchiV1.populate_entry_trend ⟨1, 2, 2, 0⟩ c10Frame 1 = some 1 := by
  rw [IchiV1.ichiEntryFlag_iff, IchiV1.entryMask_eq_true_iff]
  dsimp only
  refine ⟨?_, ?_, ?_, ?_, ?_⟩
  · rw [IchiV1.aboveSenkou_iff]
    intro k hk hkL
    have hkb : k ≤ 0 := by omega
    interval_cases k <;>
      norm_num [IchiV1.senkouCondAt, IchiV1.trendCloseAt, c10Frame, oGT]
  · rw [IchiV1.bullishAll_iff]
    intro k hk hkL
    have hkb : k ≤ 1 := by omega
    interval_cases k <;>
      norm_num [IchiV1.bullishCondAt, IchiV1.trendCloseAt, IchiV1.trendOpenAt,
        c10Frame, oGT]
  · norm_num [c10Frame, oGE]
  · norm_num [c10Frame, oGT]
  · rw [IchiV1.shiftIncreasing_iff]
    intro x hx
    exact absurd hx (by omega)

theorem c10_eval_shift1 :
    IchiV1.populate_entry_trend ⟨1, 1, 1, 1⟩ c10Frame 1 = some 1 := by
  rw [IchiV1.ichiEntryFlag_iff, IchiV1.entryMask_eq_true_iff]
  dsimp only
  refine ⟨?_, ?_, ?_, ?_, ?_⟩
  · rw [IchiV1.aboveSenkou_iff]
    intro k hk hkL
    have hkb : k ≤ 0 := by omega
    interval_cases k <;>
      norm_num [IchiV1.senkouCondAt, IchiV1.trendCloseAt, c10Frame, oGT]
  · rw [IchiV1.bullishAll_iff]
    intro k hk hkL
    have hkb : k ≤ 0 := by omega
    interval_cases k <;>
      norm_num [IchiV1.bullishCondAt, IchiV1.trendCloseAt, IchiV1.trendOpenAt,
        c10Frame, oGT]
  · norm_num [c10Frame, oGE]
  · norm_num [c10Frame, oGT]
  · rw [IchiV1.shiftIncreasing_iff]
    intro x hx
    interval_cases x
    norm_num [shiftN, c10Frame, oLT]

theorem rawA_rsi_gains :
    wilderSmooth 14 (fun j => max (rawA.close j - rawA.close (j - 1)) 0) 14 = 0 := by
  rw [show (14 : ℕ) = 13 + 1 from rfl, wilderSmooth_seed _ (by omega)]
  rw [map_range_congr 14 _ (fun _ => (0 : ℚ)) ?_]
  · simp
  · intro j hj
    have hc : rawA.close (j + 1) - rawA.close (j + 1 - 1) = -1 := by
      simp only [Nat.add_sub_cancel, rawA]
      push_cast
      ring
    show max (rawA.close (j + 1) - rawA.close (j + 1 - 1)) 0 = 0
    rw [hc]
    norm_num

theorem rawA_rsi_losses :
    wilderSmooth 14 (fun j => max (rawA.close (j - 1) - rawA.close j) 0) 14 = 1 := by
  rw [show (14 : ℕ) = 13 + 1 from rfl, wilderSmooth_seed _ (by omega)]
  rw [map_range_congr 14 _ (fun _ => (1 : ℚ)) ?_]
  · norm_num
  · intro j hj
    have hc : rawA.close (j + 1 - 1) - rawA.close (j + 1) = 1 := by
      simp only [Nat.add_sub_cancel, rawA]
      push_cast
      ring
    show max (rawA.close (j + 1 - 1) - rawA.close (j + 1)) 0 = 1
    rw [hc]
    norm_num

theorem rawA_rsi : (GridStrategyV2.populate_indicators rawA).rsi 14 = some 0 := by
  show taRSI 14 rawA.close 14 = some 0
  unfold taRSI
  rw [if_neg (by omega), rawA_rsi_gains, rawA_rsi_losses]
  norm_num

theorem rawB_rsi_gains :
    wilderSmooth 14 (fun j => max (rawB.close j - rawB.close (j - 1)) 0) 14 = 0 := by
  rw [show (14 : ℕ) = 13 + 1 from rfl, wilderSmooth_seed _ (by omega)]
  rw [map_range_congr 14 _ (fun _ => (0 : ℚ)) ?_]
  · simp
  · intro j hj
    have hc : rawB.close (j + 1) - rawB.close (j + 1 - 1) = -1 := by
      simp only [Nat.add_sub_cancel, rawB]
      push_cast
      ring
    show max (rawB.close (j + 1) - rawB.close (j + 1 - 1)) 0 = 0
    rw [hc]
    norm_num

theorem rawB_rsi_losses :
    wilderSmooth 14 (fun j => max (rawB.close (j - 1) - rawB.close j) 0) 14 = 1 := by
  rw [show (14 : ℕ) = 13 + 1 from rfl, wilderSmooth_seed _ (by omega)]
  rw [map_range_congr 14 _ (fun _ => (1 : ℚ)) ?_]
  · norm_num
  · intro j hj
    have hc : rawB.close (j + 1 - 1) - rawB.close (j + 1) = 1 := by
      simp only [Nat.add_sub_cancel, rawB]
      push_cast
      ring
    show max (rawB.close (j + 1 - 1) - rawB.close (j + 1)) 0 = 1
    rw [hc]
    norm_num

theorem rawB_rsi : (GridStrategyV2.populate_indicators rawB).rsi 14 = some 0 := by
  show taRSI 14 rawB.close 14 = some 0
  unfold taRSI
  rw [if_neg (by omega), rawB_rsi_gains, rawB_rsi_losses]
  norm_num

/-- Claim C10 witness: the antitonicity applied on a concrete frame at
row 1, lowering the senkou level 2 → 1, the bullish level 2 → 1 and the
shift value 1 → 0, each starting from a parameter set whose flag fires. -/
theorem C10_entry_antitone_witness :
    IchiV1.populate_entry_trend ⟨1, 1, 1, 0⟩ c10Frame 1 = some 1 ∧
    IchiV1.populate_entry_trend ⟨1, 1, 2, 0⟩ c10Frame 1 = some 1 ∧
    IchiV1.populate_entry_trend ⟨1, 1, 1, 0⟩ c10Frame 1 = some 1 :=
  ⟨(C10_entry_antitone c10Frame 1 1 2 1 1 1 0 0 (by omega) (by omega)
      (by omega)).1 c10_eval_senkou2,
   (C10_entry_antitone c10Frame 1 1 1 1 2 2 0 0 (by omega) (by omega)
      (by omega)).2.1 c10_eval_bullish2,
   (C10_entry_antitone c10Frame 1 1 1 1 1 1 0 1 (by omega) (by omega)
      (by omega)).2.2 c10_eval_shift1⟩

/-- Claim C3, counterexample: the claim says no flag is set on any series
shorter than `startup_candle_count`; but on the 15-row falling series
`rawA` (15 < 30), `GridStrategyV2`'s indicator stage already defines
RSI(14) = 0 at row 14, and the entry flag is set there. -/
theorem C3_counterexample :
    rawA.n < GridStrategyV2.startup_candle_count ∧ 14 < rawA.n ∧
    GridStrategyV2.populate_entry_trend (GridStrategyV2.populate_indicators rawA) 14 =
      some 1 := by
  refine ⟨by norm_num [rawA, GridStrategyV2.startup_candle_count],
    by norm_num [rawA], ?_⟩
  rw [GridStrategyV2.gridV2EntryFlag_iff]
  unfold GridStrategyV2.entryMask
  rw [rawA_rsi]
  have h30 : oLT (some (0 : ℚ)) (some 30) = true := by
    norm_num [oLT]
  rw [h30, Bool.or_true, Bool.true_and]
  show decide (0 < rawA.volume 14) = true
  norm_num [rawA]

/-- Claim C3, amended: flags are not suppressed below the declared warm-up
count in general (see the counterexample: a 15-row series < 30 already
fires `GridStrategyV2`'s entry).  What does hold: on every series shorter
than 96 rows the IchiV1 entry flag (any parameter values, hence both
variants) is unset at every row, because the 96-period EMA and hence the
fan magnitude are undefined; and on every series shorter than 15 rows the
`GridStrategyV2` exit flag is unset at every row, because RSI(14) is
undefined. -/
theorem C3_warmup_amended (p : IchiV1.BuyParams) (raw : RawFrame) (i : ℕ) :
    (raw.n < IchiV1.startup_candle_count → i < raw.n →
      IchiV1.populate_entry_trend p (IchiV1.populate_indicators raw) i = none) ∧
    (raw.n < 15 → i < raw.n →
      GridStrategyV2.populate_exit_trend (GridStrategyV2.populate_indicators raw) i =
        none) := by
  constructor
  · intro hn hi
    have hn' : raw.n < 96 := hn
    have hfan : (IchiV1.populate_indicators raw).fan_magnitude i = none := by
      show IchiV1.fanMagnitude raw i = none
      unfold IchiV1.fanMagnitude
      rw [@taEMA_undef 96 raw.close i (by omega), oDiv_none_right]
    refine (flag_eq_none_iff _).mpr ?_
    unfold IchiV1.entryMask
    rw [hfan]
    simp [oGT_none_left]
  · intro hn hi
    have hrsi : (GridStrategyV2.populate_indicators raw).rsi i = none := by
      show taRSI 14 raw.close i = none
      exact taRSI_undef raw.close (by omega)
    refine (flag_eq_none_iff _).mpr ?_
    unfold GridStrategyV2.exitMask
    rw [hrsi]
    simp [oGT_none_left]

/-- Claim C3 witness: both amended parts applied to a concrete 2-row series
at row 0. -/
theorem C3_warmup_amended_witness :
    IchiV1.populate_entry_trend IchiV1_Fixed.buy_params
      (IchiV1.populate_indicators rawC) 0 = none ∧
    GridStrategyV2.populate_exit_trend (GridStrategyV2.populate_indicators rawC) 0 =
      none :=
  ⟨(C3_warmup_amended IchiV1_Fixed.buy_params rawC 0).1
      (by norm_num [rawC, IchiV1.startup_candle_count]) (by norm_num [rawC]),
   (C3_warmup_amended IchiV1_Fixed.buy_params rawC 0).2
      (by norm_num [rawC]) (by norm_num [rawC])⟩

/-- Claim C4, counterexample: the claim says no row with `close <= 0` gets
an entry flag in either Grid variant; but `GridStrategyV2`'s entry gate
checks only `volume > 0`, so on the falling series `rawB` the entry flag is
set at row 14 although the close there is -7. -/
theorem C4_counterexample :
    rawB.close 14 ≤ 0 ∧
    GridStrategyV2.populate_entry_trend (GridStrategyV2.populate_indicators rawB) 14 =
      some 1 := by
  constructor
  · show (7 : ℚ) - ((14 : ℕ) : ℚ) ≤ 0
    push_cast
    norm_num
  · rw [GridStrategyV2.gridV2EntryFlag_iff]
    unfold GridStrategyV2.entryMask
    rw [rawB_rsi]
    have h30 : oLT (some (0 : ℚ)) (some 30) = true := by
      norm_num [oLT]
    rw [h30, Bool.or_true, Bool.true_and]
    show decide (0 < rawB.volume 14) = true
    norm_num [rawB]

/-- Claim C4, amended: `GridStrategy`'s entry mask is gated by both sanity
checks, so a flagged row has `close > 0` and `volume > 0`; `GridStrategyV2`'s
entry mask is gated only by `volume > 0` (no `close > 0` check), so a
flagged row is only guaranteed positive volume. -/
theorem C4_entry_gates_amended (g : GridStrategy.Frame) (v : GridStrategyV2.Frame)
    (i : ℕ) :
    (GridStrategy.populate_entry_trend g i = some 1 →
      0 < g.close i ∧ 0 < g.volume i) ∧
    (GridStrategyV2.populate_entry_trend v i = some 1 → 0 < v.volume i) := by
  constructor
  · intro h
    rw [GridStrategy.gridEntryFlag_iff] at h
    unfold GridStrategy.entryMask at h
    simp only [Bool.and_eq_true, decide_eq_true_eq] at h
    exact ⟨h.2, h.1.2⟩
  · intro h
    rw [GridStrategyV2.gridV2EntryFlag_iff] at h
    unfold GridStrategyV2.entryMask at h
    simp only [Bool.and_eq_true, decide_eq_true_eq] at h
    exact h.2

/-- Claim C4 witness: the amended gate implications applied to concrete
frames (RSI below threshold, unit close and volume) whose entry flags fire. -/
theorem C4_entry_gates_amended_witness :
    (0 < c4GridFrame.close 0 ∧ 0 < c4GridFrame.volume 0) ∧
    0 < c4V2Frame.volume 0 :=
  ⟨(C4_entry_gates_amended c4GridFrame c4V2Frame 0).1 (by
      rw [GridStrategy.gridEntryFlag_iff]
      norm_num [GridStrategy.entryMask, c4GridFrame, oLE, oLT, oGT]),
   (C4_entry_gates_amended c4GridFrame c4V2Frame 0).2 (by
      rw [GridStrategyV2.gridV2EntryFlag_iff]
      norm_num [GridStrategyV2.entryMask, c4V2Frame, oLE, oLT])⟩
